import Mathlib

/-!
# Telemetry bridge (`src/app.js`): MQTT message handler and `GET /api/sensor`

A shallow embedding of the two asynchronous handlers of `src/app.js`:

* `mqttClient.on('message', ...)`  (lines 48-75)  is `onMessage`;
* `app.get('/api/sensor', ...)`    (lines 78-116) is `apiSensor`.

The table `data_sensor` is a list of rows.  Everything the handlers obtain from
outside the file (the result of `JSON.parse`, whether the store accepts a
connection, whether a statement is rejected, the store clock) is an explicit
input, so that every theorem quantifies over it.
-/

namespace IotBridge

/-! ## JavaScript values -/

/-- Values that `JSON.parse` can produce, together with `undefined`, which
appears when a property that is not there is read. -/
inductive JsVal where
  | undefined : JsVal
  | null : JsVal
  | bool (b : Bool) : JsVal
  | num (q : Rat) : JsVal
  | str (s : String) : JsVal
  | arr (items : List JsVal) : JsVal
  | obj (fields : List (String × JsVal)) : JsVal

/-- Property read `v.k` for a key `k` that no prototype defines
(`temperature`, `humidity`, `brightness`): reading from `null` or `undefined`
throws a TypeError, an object gives its own property or `undefined`, every
other value gives `undefined`.  The field list of `obj` holds each key once. -/
def getProp (v : JsVal) (k : String) : Except String JsVal :=
  match v with
  | .undefined => .error ("Cannot read properties of undefined (reading " ++ k ++ ")")
  | .null => .error ("Cannot read properties of null (reading " ++ k ++ ")")
  | .obj fields =>
    match fields.lookup k with
    | some x => .ok x
    | none => .ok .undefined
  | _ => .ok .undefined

mutual
/-- Whether converting the value to a string inside a template literal throws:
an object decoded from JSON whose own `toString` is not callable cannot be
converted to a primitive; an array joins the conversions of its items. -/
def toStringThrows : JsVal → Bool
  | .obj fields => (fields.lookup "toString").isSome
  | .arr items => anyThrows items
  | _ => false
/-- The conversion of some item of the list throws. -/
def anyThrows : List JsVal → Bool
  | [] => false
  | x :: xs => toStringThrows x || anyThrows xs
end

/-! ## The store -/

/-- Modelled from the spec: a `datetime` value of the store (the table
definition is not part of the source file). -/
structure DateTime where
  year : Nat
  month : Nat
  day : Nat
  hour : Nat
  minute : Nat
  second : Nat
  deriving DecidableEq, Repr

/-- Modelled from the spec: a row of `data_sensor(id PK autoincrement, suhu
number nullable, humidity number nullable, lux number nullable, timestamp
datetime default-now)`; the table definition is not part of the source file. -/
structure Row where
  id : Nat
  suhu : Option Rat
  humidity : Option Rat
  lux : Option Rat
  timestamp : DateTime
  deriving DecidableEq, Repr

/-- Modelled from the spec: the table `data_sensor` with its auto-increment
counter (the table definition is not part of the source file). -/
structure Store where
  rows : List Row
  autoInc : Nat
  deriving DecidableEq, Repr

/-- What the store and its driver do during one handler run: errors with which
`createConnection`, the `n`-th `execute` and `end` reject (`none`: they
resolve), how the store converts a bound value that is neither a number nor
`null` for a numeric column (rejecting it, or coercing it), and the store
clock. -/
structure StoreBehaviour where
  connectError : Option String
  executeError : Nat → Option String
  endError : Option String
  coerce : JsVal → Except String (Option Rat)
  now : DateTime

/-- The SQL statements of `src/app.js` with their bound parameters. -/
inductive Stmt where
  | insertReading (temperature humidity : JsVal) : Stmt
  | updateLatestLux (brightness : JsVal) : Stmt
  | selectStats : Stmt
  | selectRecent : Stmt

/-- The driver refuses `undefined` among the bound parameters. -/
def bindParam (v : JsVal) : Except String JsVal :=
  match v with
  | .undefined =>
    .error "Bind parameters must not contain undefined. To pass SQL NULL specify JS null"
  | x => .ok x

/-- The value a numeric column takes from a bound parameter. -/
def toColumn (b : StoreBehaviour) (v : JsVal) : Except String (Option Rat) :=
  match v with
  | .null => .ok none
  | .num q => .ok (some q)
  | x => b.coerce x

/-- The clause `ORDER BY id DESC`. -/
def orderByIdDesc (rows : List Row) : List Row :=
  rows.insertionSort (fun a b => b.id ≤ a.id)

/-- The statement `INSERT INTO data_sensor (suhu, humidity) VALUES (?, ?)`: the new row takes
the next id, the two values, no `lux`, and the store clock as `timestamp`. -/
def insertRow (s : Store) (now : DateTime) (t h : Option Rat) : Store :=
  { rows := s.rows ++ [{ id := s.autoInc, suhu := t, humidity := h, lux := none,
                         timestamp := now }],
    autoInc := s.autoInc + 1 }

/-- The statement `UPDATE data_sensor SET lux = ? ORDER BY id DESC LIMIT 1`: the first row in
descending id order, if there is one, gets the new `lux`. -/
def updateLatest (s : Store) (v : Option Rat) : Store :=
  match (orderByIdDesc s.rows).head? with
  | none => s
  | some top =>
    { s with rows := s.rows.map (fun r => if r.id = top.id then { r with lux := v } else r) }

/-- The call `conn.execute` for the two writing statements, as the `n`-th statement of
the connection: the driver checks the parameters, the store may reject the
statement, otherwise the statement is applied. -/
def executeWrite (b : StoreBehaviour) (n : Nat) (s : Store) : Stmt → Except String Store
  | .insertReading t h => do
    let t1 ← bindParam t
    let h1 ← bindParam h
    match b.executeError n with
    | some e => .error e
    | none =>
      let tc ← toColumn b t1
      let hc ← toColumn b h1
      pure (insertRow s b.now tc hc)
  | .updateLatestLux v => do
    let v1 ← bindParam v
    match b.executeError n with
    | some e => .error e
    | none =>
      let vc ← toColumn b v1
      pure (updateLatest s vc)
  | _ => .ok s

/-! ## The message handler -/

/-- Line 19. -/
def TOPIC_SUHU : String := "tes/suhu"
/-- Line 20. -/
def TOPIC_LDR : String := "tes/kecerahan"

/-- A row of the result of the recent-readings query (lines 94-100). -/
structure ApiRow where
  id : Nat
  suhu : Option Rat
  humidity : Option Rat
  kecerahan : Option Rat
  waktu : String
  deriving DecidableEq, Repr

/-- The JSON bodies that `GET /api/sensor` sends: the object of lines 103-108
or the object of line 112. -/
inductive Body where
  | result (suhumax suhumin suhurata : Option Rat) (data : List ApiRow) : Body
  | error (message : String) : Body
  deriving DecidableEq, Repr

/-- What a handler run does to the outside, in order. -/
inductive Event where
  | connOpened : Event
  | executeCalled (st : Stmt) : Event
  | connEndCalled : Event
  | consoleLog (values : List JsVal) : Event
  | consoleError (message : String) : Event
  | respond (status : Nat) (body : Body) : Event

/-- A finished handler run: the store afterwards, what it did, and the
exception it let escape to its caller, if any. -/
structure Run where
  store : Store
  events : List Event
  thrown : Option String

/-- The `try` block of the message handler (lines 50-70); the third component
is the exception that leaves the block. -/
def onMessageTry (parse : String → Except String JsVal) (b : StoreBehaviour) (s : Store)
    (topic payload : String) : Store × List Event × Option String :=
  -- line 50: JSON.parse(message.toString())
  match parse payload with
  | .error e => (s, [], some e)
  | .ok data =>
    -- line 51: mysql.createConnection(dbConfig)
    match b.connectError with
    | some e => (s, [], some e)
    | none =>
      -- the statement of the branch taken, run up to line 68
      let afterBranch : Store × List Event × Option String :=
        if topic = TOPIC_SUHU then
          match getProp data "temperature" with
          | .error e => (s, [], some e)
          | .ok t =>
            match getProp data "humidity" with
            | .error e => (s, [], some e)
            | .ok h =>
              match executeWrite b 0 s (.insertReading t h) with
              | .error e => (s, [.executeCalled (.insertReading t h)], some e)
              | .ok s1 =>
                if toStringThrows t || toStringThrows h then
                  (s1, [.executeCalled (.insertReading t h)],
                    some "Cannot convert object to primitive value")
                else
                  (s1, [.executeCalled (.insertReading t h), .consoleLog [t, h]], none)
        else if topic = TOPIC_LDR then
          match getProp data "brightness" with
          | .error e => (s, [], some e)
          | .ok v =>
            match executeWrite b 0 s (.updateLatestLux v) with
            | .error e => (s, [.executeCalled (.updateLatestLux v)], some e)
            | .ok s1 =>
              if toStringThrows v then
                (s1, [.executeCalled (.updateLatestLux v)],
                  some "Cannot convert object to primitive value")
              else
                (s1, [.executeCalled (.updateLatestLux v), .consoleLog [v]], none)
        else (s, [], none)
      match afterBranch with
      | (s1, evs, some e) => (s1, .connOpened :: evs, some e)
      | (s1, evs, none) =>
        -- line 70: conn.end()
        (s1, .connOpened :: evs ++ [.connEndCalled], b.endError)

/-- The message handler (lines 48-75): the `try` block, and the `catch` block
that reports whatever was thrown. -/
def onMessage (parse : String → Except String JsVal) (b : StoreBehaviour) (s : Store)
    (topic payload : String) : Run :=
  match onMessageTry parse b s topic payload with
  | (s1, evs, some e) => { store := s1, events := evs ++ [.consoleError e], thrown := none }
  | (s1, evs, none) => { store := s1, events := evs, thrown := none }

/-- A message as the broker delivers it, with what the store does while it is
handled. -/
structure Delivery where
  topic : String
  payload : String
  behaviour : StoreBehaviour

/-- The store after the handler has processed the deliveries one at a time, in
order. -/
def runMessages (parse : String → Except String JsVal) (s : Store) : List Delivery → Store
  | [] => s
  | d :: ds => runMessages parse (onMessage parse d.behaviour s d.topic d.payload).store ds

/-- Everything the handler did while processing the deliveries, in order. -/
def runEvents (parse : String → Except String JsVal) (s : Store) : List Delivery → List Event
  | [] => []
  | d :: ds =>
    (onMessage parse d.behaviour s d.topic d.payload).events ++
      runEvents parse (onMessage parse d.behaviour s d.topic d.payload).store ds

/-- The `lux` of the row with the given id, if the row is in the table. -/
def luxOf (s : Store) (id : Nat) : Option (Option Rat) :=
  (s.rows.find? (fun r => r.id = id)).map Row.lux

/-- Number of deliveries on the brightness topic whose handling gave the row
with the given id a new `lux`. -/
def luxWrites (parse : String → Except String JsVal) (id : Nat) (s : Store) :
    List Delivery → Nat
  | [] => 0
  | d :: ds =>
    (if d.topic = TOPIC_LDR ∧
        luxOf (onMessage parse d.behaviour s d.topic d.payload).store id ≠ luxOf s id
      then 1 else 0) +
      luxWrites parse id (onMessage parse d.behaviour s d.topic d.payload).store ds

/-- Connections opened during the run on which `conn.end()` was not called. -/
def openConnections (evs : List Event) : Nat :=
  (evs.filter (fun e => match e with | .connOpened => true | _ => false)).length -
    (evs.filter (fun e => match e with | .connEndCalled => true | _ => false)).length

/-- The statements for which `conn.execute` was called during the run. -/
def statements (evs : List Event) : List Stmt :=
  evs.filterMap (fun e => match e with | .executeCalled st => some st | _ => none)

/-- The messages written with `console.error` during the run. -/
def errorsReported (evs : List Event) : List String :=
  evs.filterMap (fun e => match e with | .consoleError m => some m | _ => none)

/-- The responses sent during the run. -/
def responses (evs : List Event) : List (Nat × Body) :=
  evs.filterMap (fun e => match e with | .respond st body => some (st, body) | _ => none)

/-! ## `GET /api/sensor` -/

/-- The non-null values of column `suhu`: what `MAX`, `MIN` and `AVG` range
over. -/
def temperatures (rows : List Row) : List Rat :=
  rows.filterMap Row.suhu

/-- The aggregate `MAX(suhu)`: null over no values. -/
def sqlMax : List Rat → Option Rat
  | [] => none
  | x :: xs => some (xs.foldl max x)

/-- The aggregate `MIN(suhu)`: null over no values. -/
def sqlMin : List Rat → Option Rat
  | [] => none
  | x :: xs => some (xs.foldl min x)

/-- The aggregate `AVG(suhu)`: null over no values. -/
def sqlAvg : List Rat → Option Rat
  | [] => none
  | x :: xs => some ((x :: xs).sum / ((x :: xs).length : Rat))

/-- The function `ROUND(q, 2)`: to the nearest multiple of 1/100, a tie away from zero. -/
def sqlRound2 (q : Rat) : Rat :=
  if 0 ≤ q then ((⌊q * 100 + 1 / 2⌋ : Int) : Rat) / 100
  else -(((⌊-q * 100 + 1 / 2⌋ : Int) : Rat) / 100)

/-- The single row of the statistics query (lines 84-90). -/
structure Stats where
  suhumax : Option Rat
  suhumin : Option Rat
  suhurata : Option Rat
  deriving DecidableEq, Repr

/-- The query `SELECT MAX(suhu), MIN(suhu), ROUND(AVG(suhu),2) FROM data_sensor`. -/
def aggregateStats (rows : List Row) : Stats :=
  { suhumax := sqlMax (temperatures rows),
    suhumin := sqlMin (temperatures rows),
    suhurata := (sqlAvg (temperatures rows)).map sqlRound2 }

/-- Decimal digits of `n`, padded with zeros on the left to `width`. -/
def padLeft (width n : Nat) : String :=
  String.mk (List.replicate (width - (toString n).length) '0') ++ toString n

/-- The function `DATE_FORMAT` with the format `%Y-%m-%d %H:%i:%s`. -/
def dateFormat (t : DateTime) : String :=
  padLeft 4 t.year ++ "-" ++ padLeft 2 t.month ++ "-" ++ padLeft 2 t.day ++ " " ++
    padLeft 2 t.hour ++ ":" ++ padLeft 2 t.minute ++ ":" ++ padLeft 2 t.second

/-- The select list of lines 95-96. -/
def toApiRow (r : Row) : ApiRow :=
  { id := r.id, suhu := r.suhu, humidity := r.humidity, kecerahan := r.lux,
    waktu := dateFormat r.timestamp }

/-- The query `SELECT ... FROM data_sensor ORDER BY id DESC LIMIT n`. -/
def recentReadings (n : Nat) (rows : List Row) : List ApiRow :=
  ((orderByIdDesc rows).take n).map toApiRow

/-- The `try` block of the API handler (lines 81-108): what it did, whether
`conn` was assigned, and the exception that leaves the block. -/
def apiSensorTry (b : StoreBehaviour) (s : Store) : List Event × Bool × Option String :=
  -- line 81
  match b.connectError with
  | some e => ([], false, some e)
  | none =>
    -- lines 84-91
    match b.executeError 0 with
    | some e => ([.connOpened, .executeCalled .selectStats], true, some e)
    | none =>
      let stats := aggregateStats s.rows
      -- lines 94-100
      match b.executeError 1 with
      | some e =>
        ([.connOpened, .executeCalled .selectStats, .executeCalled .selectRecent], true, some e)
      | none =>
        -- lines 103-108
        ([.connOpened, .executeCalled .selectStats, .executeCalled .selectRecent,
          .respond 200 (.result stats.suhumax stats.suhumin stats.suhurata
            (recentReadings 10 s.rows))], true, none)

/-- The API handler (lines 78-116): the `try` block, the `catch` block that
answers 500, and the `finally` block that ends the connection if there is
one. -/
def apiSensor (b : StoreBehaviour) (s : Store) : Run :=
  match apiSensorTry b s with
  | (evs, conn, err) =>
    let afterCatch : List Event :=
      match err with
      | some e => evs ++ [.consoleError e, .respond 500 (.error e)]
      | none => evs
    if conn then
      { store := s, events := afterCatch ++ [.connEndCalled], thrown := b.endError }
    else
      { store := s, events := afterCatch, thrown := none }

/-! ## Predicates used in the statements -/

/-- The columns of a row that no statement of the message handler assigns once
the row exists. -/
def fixedColumns (r : Row) : Nat × Option Rat × Option Rat × DateTime :=
  (r.id, r.suhu, r.humidity, r.timestamp)

/-- The store accepts the connection, the statement of the message handler and
the end of the connection. -/
def Faultless (b : StoreBehaviour) : Prop :=
  b.connectError = none ∧ b.executeError 0 = none ∧ b.endError = none

/-- A brightness message: a payload on `tes/kecerahan` that decodes to an
object with a numeric field `brightness`. -/
def IsBrightnessMessage (parse : String → Except String JsVal) (d : Delivery) : Prop :=
  d.topic = TOPIC_LDR ∧
    ∃ fields v, parse d.payload = .ok (.obj fields) ∧
      fields.lookup "brightness" = some (.num v)

/-! ## Concrete inputs for the examples -/

/-- A table of `JSON.parse` on the payloads of the examples.  On any other
payload the table answers as for a payload that is not JSON; no example uses
it there. -/
def parseTable (payload : String) : Except String JsVal :=
  if payload = "\x7b\"temperature\":22.5,\"humidity\":60\x7d" then
    .ok (.obj [("temperature", .num 22.5), ("humidity", .num 60)])
  else if payload = "\x7b\"brightness\":340\x7d" then
    .ok (.obj [("brightness", .num 340)])
  else if payload = "\x7b\"brightness\":120\x7d" then
    .ok (.obj [("brightness", .num 120)])
  else if payload = "null" then
    .ok .null
  else
    .error "Unexpected token"

/-- A store clock reading. -/
def noon : DateTime :=
  { year := 2024, month := 11, day := 5, hour := 12, minute := 0, second := 0 }

/-- A store that accepts every connection and statement, and rejects a bound
value that is not a number for a numeric column. -/
def healthy : StoreBehaviour :=
  { connectError := none,
    executeError := fun _ => none,
    endError := none,
    coerce := fun _ => .error "Incorrect decimal value",
    now := noon }

/-- A store that accepts the connection and rejects every statement. -/
def tableMissing : StoreBehaviour :=
  { healthy with executeError := fun _ => some "Table iot_uts.data_sensor does not exist" }

/-- A store that refuses every connection. -/
def unreachable : StoreBehaviour :=
  { healthy with connectError := some "connect ECONNREFUSED 127.0.0.1:3306" }

/-- The empty table. -/
def emptyStore : Store :=
  { rows := [], autoInc := 1 }

/-- A table with one reading. -/
def oneReading : Store :=
  { rows := [{ id := 1, suhu := some 22.5, humidity := some 60, lux := none,
               timestamp := noon }],
    autoInc := 2 }

/-- A table with three readings of 20, 20 and 21 degrees. -/
def threeReadings : Store :=
  { rows := [{ id := 1, suhu := some 20, humidity := some 60, lux := none, timestamp := noon },
             { id := 2, suhu := some 20, humidity := some 61, lux := none, timestamp := noon },
             { id := 3, suhu := some 21, humidity := some 62, lux := none, timestamp := noon }],
    autoInc := 4 }

/-- A table with readings of ids 1 to 12 and temperatures 20 to 31. -/
def twelveReadings : Store :=
  { rows := (List.range 12).map (fun i =>
      { id := i + 1, suhu := some ((20 + i : Nat) : Rat), humidity := some 60, lux := none,
        timestamp := noon }),
    autoInc := 13 }

/-- A brightness message of 340 delivered while the store is healthy. -/
def brightness340 : Delivery :=
  { topic := TOPIC_LDR, payload := "\x7b\"brightness\":340\x7d", behaviour := healthy }

/-- A brightness message of 120 delivered while the store is healthy. -/
def brightness120 : Delivery :=
  { topic := TOPIC_LDR, payload := "\x7b\"brightness\":120\x7d", behaviour := healthy }

/-- A temperature message delivered while the store is healthy. -/
def temperature225 : Delivery :=
  { topic := TOPIC_SUHU, payload := "\x7b\"temperature\":22.5,\"humidity\":60\x7d",
    behaviour := healthy }

/-! ## Auxiliary lemmas -/

theorem topics_differ : TOPIC_LDR ≠ TOPIC_SUHU := by decide

theorem orderByIdDesc_perm (rows : List Row) : (orderByIdDesc rows).Perm rows :=
  List.perm_insertionSort _ rows

theorem orderByIdDesc_sorted (rows : List Row) :
    (orderByIdDesc rows).Pairwise (fun a b => b.id ≤ a.id) := by
  haveI : IsTotal Row (fun a b => b.id ≤ a.id) := ⟨fun a b => Nat.le_total b.id a.id⟩
  haveI : IsTrans Row (fun a b => b.id ≤ a.id) := ⟨fun _ _ _ h1 h2 => Nat.le_trans h2 h1⟩
  exact List.sorted_insertionSort (fun a b : Row => b.id ≤ a.id) rows

theorem orderByIdDesc_strict (rows : List Row) (hnd : (rows.map Row.id).Nodup) :
    (orderByIdDesc rows).Pairwise (fun a b => b.id < a.id) := by
  have hs := orderByIdDesc_sorted rows
  have hnd2 : ((orderByIdDesc rows).map Row.id).Nodup :=
    ((orderByIdDesc_perm rows).map Row.id).nodup_iff.mpr hnd
  rw [List.Nodup, List.pairwise_map] at hnd2
  exact (hs.and hnd2).imp (fun h => Nat.lt_of_le_of_ne h.1 (Ne.symm h.2))

theorem orderByIdDesc_ids (rows : List Row) :
    (orderByIdDesc rows).map Row.id = (rows.map Row.id).insertionSort (fun a b => b ≤ a) := by
  unfold orderByIdDesc
  exact List.map_insertionSort (fun a b : Row => b.id ≤ a.id) (fun a b : Nat => b ≤ a) Row.id rows
    (fun _ _ _ _ => Iff.rfl)

theorem recentReadings_ids (n : Nat) (rows : List Row) :
    (recentReadings n rows).map ApiRow.id = ((orderByIdDesc rows).take n).map Row.id := by
  simp [recentReadings, List.map_map, Function.comp_def, toApiRow]

theorem head_orderByIdDesc (rows : List Row) (hne : rows ≠ []) :
    ∃ top, (orderByIdDesc rows).head? = some top ∧ top ∈ rows ∧ ∀ r ∈ rows, r.id ≤ top.id := by
  have hp := orderByIdDesc_perm rows
  have hs := orderByIdDesc_sorted rows
  cases hL : orderByIdDesc rows with
  | nil =>
    rw [hL] at hp
    exact absurd hp.symm.eq_nil hne
  | cons top rest =>
    rw [hL] at hp hs
    refine ⟨top, rfl, hp.subset (List.mem_cons_self _ _), ?_⟩
    intro r hr
    have hr2 : r ∈ top :: rest := hp.symm.subset hr
    rcases List.mem_cons.mp hr2 with h | h
    · rw [h]
    · exact List.rel_of_pairwise_cons hs h

theorem executeWrite_insert_cases (b : StoreBehaviour) (n : Nat) (s : Store) (t h : JsVal) :
    (∃ e, executeWrite b n s (.insertReading t h) = .error e) ∨
    (∃ tc hc, executeWrite b n s (.insertReading t h) = .ok (insertRow s b.now tc hc)) := by
  simp only [executeWrite, bind, Except.bind, pure, Except.pure]
  cases bindParam t with
  | error e => exact Or.inl ⟨e, rfl⟩
  | ok t1 =>
    cases bindParam h with
    | error e => exact Or.inl ⟨e, rfl⟩
    | ok h1 =>
      cases b.executeError n with
      | some e => exact Or.inl ⟨e, rfl⟩
      | none =>
        dsimp only
        cases toColumn b t1 with
        | error e => exact Or.inl ⟨e, rfl⟩
        | ok tc =>
          dsimp only
          cases toColumn b h1 with
          | error e => exact Or.inl ⟨e, rfl⟩
          | ok hc => exact Or.inr ⟨tc, hc, rfl⟩

theorem executeWrite_update_cases (b : StoreBehaviour) (n : Nat) (s : Store) (v : JsVal) :
    (∃ e, executeWrite b n s (.updateLatestLux v) = .error e) ∨
    (∃ vc, executeWrite b n s (.updateLatestLux v) = .ok (updateLatest s vc)) := by
  simp only [executeWrite, bind, Except.bind, pure, Except.pure]
  cases bindParam v with
  | error e => exact Or.inl ⟨e, rfl⟩
  | ok v1 =>
    cases b.executeError n with
    | some e => exact Or.inl ⟨e, rfl⟩
    | none =>
      dsimp only
      cases toColumn b v1 with
      | error e => exact Or.inl ⟨e, rfl⟩
      | ok vc => exact Or.inr ⟨vc, rfl⟩

/-- Whatever the message and the store behaviour, the handler leaves the store
as it was, or applies the insert (only on `tes/suhu`), or applies the update
(only on `tes/kecerahan`). -/
theorem onMessage_store_cases (parse : String → Except String JsVal) (b : StoreBehaviour)
    (s : Store) (topic payload : String) :
    (onMessage parse b s topic payload).store = s ∨
    (topic = TOPIC_SUHU ∧ ∃ tc hc,
      (onMessage parse b s topic payload).store = insertRow s b.now tc hc) ∨
    (topic = TOPIC_LDR ∧ ∃ vc,
      (onMessage parse b s topic payload).store = updateLatest s vc) := by
  unfold onMessage onMessageTry
  cases parse payload with
  | error e => simp
  | ok data =>
    cases b.connectError with
    | some e => simp
    | none =>
      by_cases h1 : topic = TOPIC_SUHU
      · simp only [h1, if_true]
        cases getProp data "temperature" with
        | error e => simp
        | ok t =>
          cases getProp data "humidity" with
          | error e => simp
          | ok h =>
            rcases executeWrite_insert_cases b 0 s t h with ⟨e, he⟩ | ⟨tc, hc, he⟩
            · simp [he]
            · right; left
              refine ⟨trivial, tc, hc, ?_⟩
              simp only [he]
              cases toStringThrows t || toStringThrows h <;> cases b.endError <;> simp
      · by_cases h2 : topic = TOPIC_LDR
        · simp only [h2, topics_differ, if_false, if_true]
          cases getProp data "brightness" with
          | error e => simp
          | ok v =>
            rcases executeWrite_update_cases b 0 s v with ⟨e, he⟩ | ⟨vc, he⟩
            · simp [he]
            · right; right
              refine ⟨trivial, vc, ?_⟩
              simp only [he]
              cases toStringThrows v <;> cases b.endError <;> simp
        · left
          simp only [h1, h2, if_false]
          cases b.endError <;> simp

/-- A temperature message with numeric fields, on a store that accepts the
connection and the statement, applies the insert with the two values. -/
theorem onMessage_temperature_store (parse : String → Except String JsVal)
    (b : StoreBehaviour) (s : Store) (payload : String) (fields : List (String × JsVal))
    (t h : Rat)
    (hparse : parse payload = .ok (.obj fields))
    (ht : fields.lookup "temperature" = some (.num t))
    (hh : fields.lookup "humidity" = some (.num h))
    (hconn : b.connectError = none) (hexec : b.executeError 0 = none) :
    (onMessage parse b s TOPIC_SUHU payload).store = insertRow s b.now (some t) (some h) := by
  simp [onMessage, onMessageTry, hparse, hconn, getProp, ht, hh, executeWrite, bindParam,
    hexec, toColumn, toStringThrows, bind, Except.bind, pure, Except.pure]
  cases b.endError <;> simp

/-- A brightness message with a numeric field, on a store that accepts the
connection and the statement, applies the update with the value. -/
theorem onMessage_brightness_store (parse : String → Except String JsVal)
    (b : StoreBehaviour) (s : Store) (payload : String) (fields : List (String × JsVal))
    (v : Rat)
    (hparse : parse payload = .ok (.obj fields))
    (hv : fields.lookup "brightness" = some (.num v))
    (hconn : b.connectError = none) (hexec : b.executeError 0 = none) :
    (onMessage parse b s TOPIC_LDR payload).store = updateLatest s (some v) := by
  simp [onMessage, onMessageTry, hparse, hconn, getProp, hv, executeWrite, bindParam,
    hexec, toColumn, toStringThrows, bind, Except.bind, pure, Except.pure, topics_differ]
  cases b.endError <;> simp

theorem fixedColumns_updateLatest (s : Store) (v : Option Rat) :
    (updateLatest s v).rows.map fixedColumns = s.rows.map fixedColumns := by
  unfold updateLatest
  cases (orderByIdDesc s.rows).head? with
  | none => rfl
  | some top =>
    simp only [List.map_map]
    apply List.map_congr_left
    intro r _
    by_cases h : r.id = top.id <;> simp [h, fixedColumns]

/-- One message keeps the fixed columns of every row in place and adds at most
one row, and none unless the topic is `tes/suhu`. -/
theorem step_fixedColumns (parse : String → Except String JsVal) (b : StoreBehaviour)
    (s : Store) (topic payload : String) :
    s.rows.map fixedColumns <+: (onMessage parse b s topic payload).store.rows.map fixedColumns ∧
    (onMessage parse b s topic payload).store.rows.length ≤
      s.rows.length + (if topic = TOPIC_SUHU then 1 else 0) := by
  rcases onMessage_store_cases parse b s topic payload with h | ⟨ht, tc, hc, h⟩ | ⟨ht, vc, h⟩
  · rw [h]; exact ⟨List.prefix_refl _, Nat.le_add_right _ _⟩
  · rw [h]
    refine ⟨?_, ?_⟩
    · simp [insertRow]
    · simp [insertRow, ht]
  · rw [h]
    refine ⟨?_, ?_⟩
    · rw [fixedColumns_updateLatest]
    · have := congrArg List.length (fixedColumns_updateLatest s vc)
      simp only [List.length_map] at this
      rw [this]; exact Nat.le_add_right _ _

/-- A message on a topic other than `tes/kecerahan` leaves every row of the
table as it was. -/
theorem step_rows_off_brightness (parse : String → Except String JsVal) (b : StoreBehaviour)
    (s : Store) (topic payload : String) (hne : topic ≠ TOPIC_LDR) :
    s.rows <+: (onMessage parse b s topic payload).store.rows := by
  rcases onMessage_store_cases parse b s topic payload with h | ⟨_, tc, hc, h⟩ | ⟨ht, _⟩
  · rw [h]
  · rw [h]; simp [insertRow]
  · exact absurd ht hne

theorem foldl_max_spec (xs : List Rat) (x : Rat) :
    xs.foldl max x ∈ x :: xs ∧ ∀ t ∈ x :: xs, t ≤ xs.foldl max x := by
  induction xs generalizing x with
  | nil => simp
  | cons y ys ih =>
    obtain ⟨hmem, hle⟩ := ih (max x y)
    have htop := hle _ (List.mem_cons_self _ _)
    refine ⟨?_, ?_⟩
    · simp only [List.foldl_cons]
      rcases List.mem_cons.mp hmem with h | h
      · rw [h]
        rcases max_choice x y with hc | hc <;> simp [hc]
      · simp [h]
    · intro t ht
      simp only [List.foldl_cons]
      rcases List.mem_cons.mp ht with h | h
      · subst h
        exact le_trans (le_max_left _ _) htop
      · rcases List.mem_cons.mp h with h2 | h2
        · subst h2
          exact le_trans (le_max_right _ _) htop
        · exact hle t (List.mem_cons_of_mem _ h2)

theorem foldl_min_spec (xs : List Rat) (x : Rat) :
    xs.foldl min x ∈ x :: xs ∧ ∀ t ∈ x :: xs, xs.foldl min x ≤ t := by
  induction xs generalizing x with
  | nil => simp
  | cons y ys ih =>
    obtain ⟨hmem, hle⟩ := ih (min x y)
    have htop := hle _ (List.mem_cons_self _ _)
    refine ⟨?_, ?_⟩
    · simp only [List.foldl_cons]
      rcases List.mem_cons.mp hmem with h | h
      · rw [h]
        rcases min_choice x y with hc | hc <;> simp [hc]
      · simp [h]
    · intro t ht
      simp only [List.foldl_cons]
      rcases List.mem_cons.mp ht with h | h
      · subst h
        exact le_trans htop (min_le_left _ _)
      · rcases List.mem_cons.mp h with h2 | h2
        · subst h2
          exact le_trans htop (min_le_right _ _)
        · exact hle t (List.mem_cons_of_mem _ h2)

/-- The rounded value is a whole number of hundredths and lies within half a
hundredth of the value rounded. -/
theorem sqlRound2_spec (q : Rat) :
    (∃ k : Int, sqlRound2 q = (k : Rat) / 100) ∧ |sqlRound2 q - q| ≤ 1 / 200 := by
  unfold sqlRound2
  split
  · refine ⟨⟨_, rfl⟩, ?_⟩
    have h1 := Int.floor_le (q * 100 + 1 / 2)
    have h2 := Int.lt_floor_add_one (q * 100 + 1 / 2)
    rw [abs_le]
    constructor <;> linarith
  · refine ⟨⟨-⌊-q * 100 + 1 / 2⌋, by push_cast; ring⟩, ?_⟩
    have h1 := Int.floor_le (-q * 100 + 1 / 2)
    have h2 := Int.lt_floor_add_one (-q * 100 + 1 / 2)
    rw [abs_le]
    constructor <;> linarith

/-- When the connection and both queries succeed, the API handler runs the two
queries, answers 200 with their results and ends the connection. -/
theorem apiSensor_ok (b : StoreBehaviour) (s : Store) (hc : b.connectError = none)
    (h0 : b.executeError 0 = none) (h1 : b.executeError 1 = none) :
    (apiSensor b s).events =
      [.connOpened, .executeCalled .selectStats, .executeCalled .selectRecent,
        .respond 200 (.result (aggregateStats s.rows).suhumax (aggregateStats s.rows).suhumin
          (aggregateStats s.rows).suhurata (recentReadings 10 s.rows)),
        .connEndCalled] := by
  simp [apiSensor, apiSensorTry, hc, h0, h1]

theorem temperatures_twelveReadings :
    temperatures twelveReadings.rows = [20, 21, 22, 23, 24, 25, 26, 27, 28, 29, 30, 31] := by
  simp [temperatures, twelveReadings, List.range, List.range.loop]
  norm_num

/-- A brightness message on an empty table: the store stays as it was, nothing
escapes the handler, and on a faultless store the run is connect, update, log,
end. -/
theorem brightness_step_on_empty (parse : String → Except String JsVal) (b : StoreBehaviour)
    (s : Store) (payload : String) (fields : List (String × JsVal)) (v : Rat)
    (hempty : s.rows = [])
    (hparse : parse payload = .ok (.obj fields))
    (hv : fields.lookup "brightness" = some (.num v)) :
    (onMessage parse b s TOPIC_LDR payload).store = s ∧
    (onMessage parse b s TOPIC_LDR payload).thrown = none ∧
    (Faultless b → (onMessage parse b s TOPIC_LDR payload).events =
      [.connOpened, .executeCalled (.updateLatestLux (.num v)), .consoleLog [.num v],
        .connEndCalled]) := by
  have hup : ∀ x, updateLatest s x = s := by
    intro x
    simp [updateLatest, hempty, orderByIdDesc]
  refine ⟨?_, ?_, ?_⟩
  · rcases onMessage_store_cases parse b s TOPIC_LDR payload with h | ⟨ht, _⟩ | ⟨_, vc, h⟩
    · exact h
    · exact absurd ht topics_differ
    · rw [h, hup]
  · unfold onMessage
    split <;> rfl
  · rintro ⟨hc, he, hend⟩
    simp [onMessage, onMessageTry, hparse, hc, topics_differ, getProp, hv, executeWrite,
      bindParam, he, toColumn, toStringThrows, hend, bind, Except.bind, pure, Except.pure]

/-! ## Theorems -/

/-- C1.  A temperature message (a payload on `tes/suhu` that decodes to an
object with numeric `temperature` and `humidity`), handled while the store
accepts the connection and the statement: the table afterwards is the table
before followed by exactly one new row, so the row count grows by one and
every earlier row is unchanged; the new row has `suhu` and `humidity` equal to
the values of the message and no `lux`. -/
theorem temperature_message_adds_one_row (parse : String → Except String JsVal)
    (b : StoreBehaviour) (s : Store) (payload : String) (fields : List (String × JsVal))
    (t h : Rat)
    (hparse : parse payload = .ok (.obj fields))
    (ht : fields.lookup "temperature" = some (.num t))
    (hh : fields.lookup "humidity" = some (.num h))
    (hconn : b.connectError = none) (hexec : b.executeError 0 = none) :
    (onMessage parse b s TOPIC_SUHU payload).store.rows.length = s.rows.length + 1 ∧
    ∃ r, (onMessage parse b s TOPIC_SUHU payload).store.rows = s.rows ++ [r] ∧
      r.suhu = some t ∧ r.humidity = some h ∧ r.lux = none ∧
      r.id = s.autoInc ∧ r.timestamp = b.now := by
  rw [onMessage_temperature_store parse b s payload fields t h hparse ht hh hconn hexec]
  refine ⟨by simp [insertRow], _, rfl, rfl, rfl, rfl, rfl, rfl⟩

/-- C1, at the message `temperature 22.5, humidity 60` on a table with one
row. -/
theorem temperature_message_adds_one_row_witness :
    (onMessage parseTable healthy oneReading TOPIC_SUHU
        "\x7b\"temperature\":22.5,\"humidity\":60\x7d").store.rows.length =
      oneReading.rows.length + 1 ∧
    ∃ r, (onMessage parseTable healthy oneReading TOPIC_SUHU
        "\x7b\"temperature\":22.5,\"humidity\":60\x7d").store.rows = oneReading.rows ++ [r] ∧
      r.suhu = some 22.5 ∧ r.humidity = some 60 ∧ r.lux = none ∧
      r.id = oneReading.autoInc ∧ r.timestamp = healthy.now :=
  temperature_message_adds_one_row parseTable healthy oneReading
    "\x7b\"temperature\":22.5,\"humidity\":60\x7d"
    [("temperature", .num 22.5), ("humidity", .num 60)] 22.5 60
    (by simp [parseTable]) (by simp [List.lookup]) (by simp [List.lookup]) rfl rfl

/-- C2.  A brightness message (a payload on `tes/kecerahan` that decodes to an
object with a numeric `brightness`) on a table with at least one row and
distinct ids, handled while the store accepts the connection and the statement:
there is a row `top` of maximum id, it is the only row with that id, and the
table afterwards is the table before with `lux` of `top` set to the value of
the message; every other row, the other columns of `top`, the row count and
the id counter are unchanged. -/
theorem brightness_message_updates_latest_row (parse : String → Except String JsVal)
    (b : StoreBehaviour) (s : Store) (payload : String) (fields : List (String × JsVal))
    (v : Rat)
    (hpk : (s.rows.map Row.id).Nodup) (hne : s.rows ≠ [])
    (hparse : parse payload = .ok (.obj fields))
    (hv : fields.lookup "brightness" = some (.num v))
    (hconn : b.connectError = none) (hexec : b.executeError 0 = none) :
    ∃ top, top ∈ s.rows ∧ (∀ r ∈ s.rows, r.id ≤ top.id) ∧
      (∀ r ∈ s.rows, r.id = top.id → r = top) ∧
      (onMessage parse b s TOPIC_LDR payload).store.rows =
        s.rows.map (fun r =>
          if r = top then
            { id := r.id, suhu := r.suhu, humidity := r.humidity, lux := some v,
              timestamp := r.timestamp }
          else r) ∧
      (onMessage parse b s TOPIC_LDR payload).store.rows.length = s.rows.length ∧
      (onMessage parse b s TOPIC_LDR payload).store.autoInc = s.autoInc := by
  obtain ⟨top, hhead, hmem, hmax⟩ := head_orderByIdDesc s.rows hne
  have huniq : ∀ r ∈ s.rows, r.id = top.id → r = top := by
    intro r hr hid
    exact List.inj_on_of_nodup_map hpk hr hmem hid
  rw [onMessage_brightness_store parse b s payload fields v hparse hv hconn hexec]
  refine ⟨top, hmem, hmax, huniq, ?_, ?_, ?_⟩
  · simp only [updateLatest, hhead]
    apply List.map_congr_left
    intro r hr
    by_cases h : r = top
    · simp [h]
    · have : r.id ≠ top.id := fun hid => h (huniq r hr hid)
      simp [h, this]
  · simp [updateLatest, hhead]
  · simp [updateLatest, hhead]

/-- C2, at the message `brightness 340` on a table with three rows. -/
theorem brightness_message_updates_latest_row_witness :
    ∃ top, top ∈ threeReadings.rows ∧ (∀ r ∈ threeReadings.rows, r.id ≤ top.id) ∧
      (∀ r ∈ threeReadings.rows, r.id = top.id → r = top) ∧
      (onMessage parseTable healthy threeReadings TOPIC_LDR
          "\x7b\"brightness\":340\x7d").store.rows =
        threeReadings.rows.map (fun r =>
          if r = top then
            { id := r.id, suhu := r.suhu, humidity := r.humidity, lux := some 340,
              timestamp := r.timestamp }
          else r) ∧
      (onMessage parseTable healthy threeReadings TOPIC_LDR
          "\x7b\"brightness\":340\x7d").store.rows.length = threeReadings.rows.length ∧
      (onMessage parseTable healthy threeReadings TOPIC_LDR
          "\x7b\"brightness\":340\x7d").store.autoInc = threeReadings.autoInc :=
  brightness_message_updates_latest_row parseTable healthy threeReadings
    "\x7b\"brightness\":340\x7d" [("brightness", .num 340)] 340
    (by decide) (by simp [threeReadings]) (by simp [parseTable]) (by simp [List.lookup]) rfl rfl

/-- C3.  A payload that `JSON.parse` rejects, on any topic (so in particular on
`tes/suhu` and on `tes/kecerahan`): the handler leaves the store as it was, its
only action is the `console.error` of the decoding error, so no connection is
opened and no statement is executed, and no exception leaves the handler. -/
theorem malformed_payload_dropped (parse : String → Except String JsVal)
    (b : StoreBehaviour) (s : Store) (topic payload e : String)
    (hbad : parse payload = .error e) :
    (onMessage parse b s topic payload).store = s ∧
    (onMessage parse b s topic payload).events = [.consoleError e] ∧
    openConnections (onMessage parse b s topic payload).events = 0 ∧
    statements (onMessage parse b s topic payload).events = [] ∧
    (onMessage parse b s topic payload).thrown = none := by
  simp [onMessage, onMessageTry, hbad, openConnections, statements]

/-- C3, at a payload that is not JSON on topic `tes/suhu`. -/
theorem malformed_payload_dropped_witness :
    (onMessage parseTable healthy oneReading TOPIC_SUHU "suhu=22.5").store = oneReading ∧
    (onMessage parseTable healthy oneReading TOPIC_SUHU "suhu=22.5").events =
      [.consoleError "Unexpected token"] ∧
    openConnections (onMessage parseTable healthy oneReading TOPIC_SUHU "suhu=22.5").events = 0 ∧
    statements (onMessage parseTable healthy oneReading TOPIC_SUHU "suhu=22.5").events = [] ∧
    (onMessage parseTable healthy oneReading TOPIC_SUHU "suhu=22.5").thrown = none :=
  malformed_payload_dropped parseTable healthy oneReading TOPIC_SUHU "suhu=22.5"
    "Unexpected token" (by simp [parseTable])

/-- C4, the code at the failing inputs.  On `tes/suhu` with the payload `null`
(valid JSON) and a healthy store, and on `tes/suhu` with a valid temperature
message while the store rejects the statement, the handler opens a connection
and finishes without calling `conn.end()` on it: one connection stays open.
The API handler, whose `finally` block ends the connection, leaves none open
when its statement is rejected. -/
theorem message_handler_leaks_connection :
    openConnections (onMessage parseTable healthy oneReading TOPIC_SUHU "null").events = 1 ∧
    openConnections (onMessage parseTable tableMissing oneReading TOPIC_SUHU
      "\x7b\"temperature\":22.5,\"humidity\":60\x7d").events = 1 ∧
    openConnections (apiSensor tableMissing oneReading).events = 0 := by
  refine ⟨?_, ?_, ?_⟩
  · simp [onMessage, onMessageTry, parseTable, healthy, TOPIC_SUHU, getProp, openConnections]
  · simp [onMessage, onMessageTry, parseTable, healthy, tableMissing, TOPIC_SUHU, getProp,
      openConnections, executeWrite, bindParam, bind, Except.bind, List.lookup]
  · simp [apiSensor, apiSensorTry, tableMissing, healthy, openConnections]

/-- C5.  For every store and every store behaviour the API handler sends
exactly one response: either 200 with the object of the four fields `suhumax`,
`suhumin`, `suhurata`, `data` (and then the connection and both queries
succeeded), or 500 with the object whose only field is `error`, carrying the
message of the failure of the connection, of the first query or of the second
query. -/
theorem api_response_all_or_nothing (b : StoreBehaviour) (s : Store) :
    (responses (apiSensor b s).events =
        [(200, .result (aggregateStats s.rows).suhumax (aggregateStats s.rows).suhumin
          (aggregateStats s.rows).suhurata (recentReadings 10 s.rows))] ∧
      b.connectError = none ∧ b.executeError 0 = none ∧ b.executeError 1 = none) ∨
    (∃ e, responses (apiSensor b s).events = [(500, .error e)] ∧
      (b.connectError = some e ∨
        (b.connectError = none ∧ b.executeError 0 = some e) ∨
        (b.connectError = none ∧ b.executeError 0 = none ∧ b.executeError 1 = some e))) := by
  cases hc : b.connectError with
  | some e =>
    right
    exact ⟨e, by simp [apiSensor, apiSensorTry, hc, responses], Or.inl rfl⟩
  | none =>
    cases h0 : b.executeError 0 with
    | some e =>
      right
      exact ⟨e, by simp [apiSensor, apiSensorTry, hc, h0, responses], Or.inr (Or.inl ⟨rfl, rfl⟩)⟩
    | none =>
      cases h1 : b.executeError 1 with
      | some e =>
        right
        exact ⟨e, by simp [apiSensor, apiSensorTry, hc, h0, h1, responses],
          Or.inr (Or.inr ⟨rfl, rfl, rfl⟩)⟩
      | none =>
        left
        exact ⟨by simp [apiSensor, apiSensorTry, hc, h0, h1, responses], rfl, rfl, rfl⟩

/-- C6.  On a table with distinct ids, `recentReadings 10` has exactly
`min n 10` rows for a table of `n` rows, never more than 10; its ids are
strictly descending; each returned row is a row of the table; every row of the
table that is not returned has an id below the id of every returned row; and
on a table with ids 1 to 12 the returned ids are 12, 11, ..., 3. -/
theorem recentReadings_newest_ten (s : Store) (hpk : (s.rows.map Row.id).Nodup) :
    (recentReadings 10 s.rows).length = min s.rows.length 10 ∧
    (recentReadings 10 s.rows).length ≤ 10 ∧
    ((recentReadings 10 s.rows).map ApiRow.id).Pairwise (fun a b => b < a) ∧
    (∀ a ∈ recentReadings 10 s.rows, ∃ r ∈ s.rows, a = toApiRow r) ∧
    (∀ r ∈ s.rows, r.id ∉ (recentReadings 10 s.rows).map ApiRow.id →
      ∀ a ∈ recentReadings 10 s.rows, r.id < a.id) ∧
    (s.rows.map Row.id = [1, 2, 3, 4, 5, 6, 7, 8, 9, 10, 11, 12] →
      (recentReadings 10 s.rows).map ApiRow.id = [12, 11, 10, 9, 8, 7, 6, 5, 4, 3]) := by
  have hstrict := orderByIdDesc_strict s.rows hpk
  have hsplit : (orderByIdDesc s.rows).take 10 ++ (orderByIdDesc s.rows).drop 10 =
      orderByIdDesc s.rows := List.take_append_drop 10 _
  refine ⟨?_, ?_, ?_, ?_, ?_, ?_⟩
  · simp [recentReadings, orderByIdDesc, Nat.min_comm]
  · simp [recentReadings]
  · rw [recentReadings_ids, List.pairwise_map]
    exact hstrict.sublist (List.take_sublist 10 _)
  · intro a ha
    simp only [recentReadings, List.mem_map] at ha
    obtain ⟨r, hr, rfl⟩ := ha
    exact ⟨r, (orderByIdDesc_perm s.rows).subset (List.mem_of_mem_take hr), rfl⟩
  · intro r hr hnot a ha
    simp only [recentReadings, List.mem_map] at ha
    obtain ⟨x, hx, rfl⟩ := ha
    have hrL : r ∈ (orderByIdDesc s.rows).take 10 ++ (orderByIdDesc s.rows).drop 10 := by
      rw [hsplit]; exact (orderByIdDesc_perm s.rows).symm.subset hr
    rcases List.mem_append.mp hrL with h | h
    · exact absurd (by rw [recentReadings_ids]; exact List.mem_map_of_mem _ h) hnot
    · rw [← hsplit] at hstrict
      exact (List.pairwise_append.mp hstrict).2.2 x hx r h
  · intro hids
    rw [recentReadings_ids, List.map_take, orderByIdDesc_ids, hids]
    decide

/-- C6, at the table with ids 1 to 12: the returned ids are 12 down to 3. -/
theorem recentReadings_newest_ten_witness :
    (recentReadings 10 twelveReadings.rows).map ApiRow.id =
      [12, 11, 10, 9, 8, 7, 6, 5, 4, 3] :=
  (recentReadings_newest_ten twelveReadings (by decide)).2.2.2.2.2 (by decide)

/-- C7 as stated fails.  On the table with temperatures 20, 20 and 21 the
arithmetic mean is 61/3, and `suhurata` is 20.33, which is not the mean. -/
theorem suhurata_is_not_the_mean :
    temperatures threeReadings.rows = [20, 20, 21] ∧
    sqlAvg (temperatures threeReadings.rows) = some (61 / 3) ∧
    (aggregateStats threeReadings.rows).suhurata = some (2033 / 100) ∧
    (aggregateStats threeReadings.rows).suhurata ≠ sqlAvg (temperatures threeReadings.rows) := by
  have ht : temperatures threeReadings.rows = [20, 20, 21] := by
    simp [temperatures, threeReadings]
  have hf : ⌊(61 / 3 : Rat) * 100 + 1 / 2⌋ = 2033 := by
    rw [Int.floor_eq_iff]; norm_num
  have havg : sqlAvg (temperatures threeReadings.rows) = some (61 / 3) := by
    rw [ht]; norm_num [sqlAvg]
  have hr : sqlRound2 (61 / 3) = 2033 / 100 := by
    unfold sqlRound2
    rw [if_pos (by norm_num), hf]; norm_num
  have hrata : (aggregateStats threeReadings.rows).suhurata = some (2033 / 100) := by
    simp only [aggregateStats, havg, Option.map, hr]
  refine ⟨ht, havg, hrata, ?_⟩
  rw [hrata, havg]
  norm_num

/-- C7, amended.  Over the non-null temperatures of the table: if there are
none, `suhumax`, `suhumin` and `suhurata` are all null; otherwise `suhumax` is
the maximum, `suhumin` the minimum, and `suhurata` the arithmetic mean rounded
to two decimals (a whole number of hundredths within 0.005 of the mean).  For
temperatures 20 to 31 the three are 31, 20 and 25.5.  When the connection and
both queries succeed, the API handler answers 200 with these three values and
reports no error. -/
theorem aggregateStats_rounded_mean (s : Store) (b : StoreBehaviour) :
    (temperatures s.rows = [] →
      aggregateStats s.rows = { suhumax := none, suhumin := none, suhurata := none }) ∧
    (temperatures s.rows ≠ [] →
      ∃ mx mn av,
        aggregateStats s.rows = { suhumax := some mx, suhumin := some mn, suhurata := some av } ∧
        mx ∈ temperatures s.rows ∧ (∀ t ∈ temperatures s.rows, t ≤ mx) ∧
        mn ∈ temperatures s.rows ∧ (∀ t ∈ temperatures s.rows, mn ≤ t) ∧
        av = sqlRound2 ((temperatures s.rows).sum / ((temperatures s.rows).length : Rat)) ∧
        (∃ k : Int, av = (k : Rat) / 100) ∧
        |av - (temperatures s.rows).sum / ((temperatures s.rows).length : Rat)| ≤ 1 / 200) ∧
    (temperatures s.rows = [20, 21, 22, 23, 24, 25, 26, 27, 28, 29, 30, 31] →
      aggregateStats s.rows =
        { suhumax := some 31, suhumin := some 20, suhurata := some 25.5 }) ∧
    (b.connectError = none → b.executeError 0 = none → b.executeError 1 = none →
      responses (apiSensor b s).events =
        [(200, .result (aggregateStats s.rows).suhumax (aggregateStats s.rows).suhumin
          (aggregateStats s.rows).suhurata (recentReadings 10 s.rows))] ∧
      errorsReported (apiSensor b s).events = []) := by
  refine ⟨?_, ?_, ?_, ?_⟩
  · intro h
    simp [aggregateStats, h, sqlMax, sqlMin, sqlAvg]
  · intro hne
    cases hts : temperatures s.rows with
    | nil => exact absurd hts hne
    | cons x xs =>
      obtain ⟨hmaxmem, hmaxle⟩ := foldl_max_spec xs x
      obtain ⟨hminmem, hminle⟩ := foldl_min_spec xs x
      obtain ⟨hk, habs⟩ := sqlRound2_spec ((x :: xs).sum / ((x :: xs).length : Rat))
      refine ⟨xs.foldl max x, xs.foldl min x,
        sqlRound2 ((x :: xs).sum / ((x :: xs).length : Rat)), ?_, hmaxmem, hmaxle, hminmem,
        hminle, rfl, hk, habs⟩
      simp only [aggregateStats, hts, sqlMax, sqlMin, sqlAvg, Option.map]
  · intro h
    have hf : ⌊(51 / 2 : Rat) * 100 + 1 / 2⌋ = 2550 := by
      rw [Int.floor_eq_iff]; norm_num
    simp only [aggregateStats, h, sqlMax, sqlMin, sqlAvg, List.foldl, Option.map]
    norm_num [sqlRound2, hf]
  · intro hc h0 h1
    rw [apiSensor_ok b s hc h0 h1]
    simp [responses, errorsReported]

/-- C7 amended, at the table with ids 1 to 12 and temperatures 20 to 31:
maximum 31, minimum 20, rounded mean 25.5. -/
theorem aggregateStats_rounded_mean_witness :
    aggregateStats twelveReadings.rows =
      { suhumax := some 31, suhumin := some 20, suhurata := some 25.5 } :=
  (aggregateStats_rounded_mean twelveReadings healthy).2.2.1 temperatures_twelveReadings

/-- C8.  Brightness messages arriving while the table is empty: each of them
leaves the store as it was and lets no exception escape, and reports no error
when the store is faultless; so after any sequence of them the store is still
the one before, and on a faultless store no error is reported during the whole
sequence. -/
theorem brightness_on_empty_table (parse : String → Except String JsVal) (ds : List Delivery)
    (s : Store) (hempty : s.rows = []) (hds : ∀ d ∈ ds, IsBrightnessMessage parse d) :
    (∀ d ∈ ds, (onMessage parse d.behaviour s d.topic d.payload).store = s ∧
      (onMessage parse d.behaviour s d.topic d.payload).thrown = none ∧
      (Faultless d.behaviour →
        errorsReported (onMessage parse d.behaviour s d.topic d.payload).events = [])) ∧
    runMessages parse s ds = s ∧
    ((∀ d ∈ ds, Faultless d.behaviour) → errorsReported (runEvents parse s ds) = []) := by
  have hstep : ∀ d, IsBrightnessMessage parse d →
      (onMessage parse d.behaviour s d.topic d.payload).store = s ∧
      (onMessage parse d.behaviour s d.topic d.payload).thrown = none ∧
      (Faultless d.behaviour →
        errorsReported (onMessage parse d.behaviour s d.topic d.payload).events = []) := by
    rintro d ⟨ht, fields, v, hp, hv⟩
    rw [ht]
    obtain ⟨h1, h2, h3⟩ := brightness_step_on_empty parse d.behaviour s d.payload fields v
      hempty hp hv
    refine ⟨h1, h2, fun hf => ?_⟩
    rw [h3 hf]
    simp [errorsReported]
  refine ⟨fun d hd => hstep d (hds d hd), ?_, ?_⟩
  · induction ds with
    | nil => rfl
    | cons d ds ih =>
      simp only [runMessages]
      rw [(hstep d (hds d (List.mem_cons_self _ _))).1]
      exact ih (fun x hx => hds x (List.mem_cons_of_mem _ hx))
  · induction ds with
    | nil => intro _; rfl
    | cons d ds ih =>
      intro hf
      obtain ⟨h1, _, h3⟩ := hstep d (hds d (List.mem_cons_self _ _))
      simp only [runEvents]
      rw [h1]
      have hrest := ih (fun x hx => hds x (List.mem_cons_of_mem _ hx))
        (fun x hx => hf x (List.mem_cons_of_mem _ hx))
      have hhead := h3 (hf d (List.mem_cons_self _ _))
      simp only [errorsReported, List.filterMap_append] at hhead hrest ⊢
      rw [hhead, hrest]; rfl

/-- C8, at two brightness messages arriving on the empty table: the table is
still empty and no error was reported. -/
theorem brightness_on_empty_table_witness :
    runMessages parseTable emptyStore [brightness340, brightness120] = emptyStore ∧
    errorsReported (runEvents parseTable emptyStore [brightness340, brightness120]) = [] :=
  have h := brightness_on_empty_table parseTable [brightness340, brightness120] emptyStore rfl
    (by
      intro d hd
      simp only [List.mem_cons, List.mem_singleton, List.not_mem_nil, or_false] at hd
      rcases hd with rfl | rfl
      · exact ⟨rfl, [("brightness", .num 340)], 340, by simp [brightness340, parseTable],
          by simp [List.lookup]⟩
      · exact ⟨rfl, [("brightness", .num 120)], 120, by simp [brightness120, parseTable],
          by simp [List.lookup]⟩)
  ⟨h.2.1, h.2.2 (by
    intro d hd
    simp only [List.mem_cons, List.mem_singleton, List.not_mem_nil, or_false] at hd
    rcases hd with rfl | rfl <;> exact ⟨rfl, rfl, rfl⟩)⟩

/-- C9 as stated fails.  On a topic that is neither `tes/suhu` nor
`tes/kecerahan`, a payload that is not JSON makes the handler report the
decoding error. -/
theorem unknown_topic_bad_payload_reports_error :
    "lain/topik" ≠ TOPIC_SUHU ∧ "lain/topik" ≠ TOPIC_LDR ∧
    errorsReported (onMessage parseTable healthy oneReading "lain/topik" "bukan json").events =
      ["Unexpected token"] := by
  refine ⟨by decide, by decide, ?_⟩
  simp [onMessage, onMessageTry, parseTable, errorsReported]

/-- C9, amended.  On a topic that is neither `tes/suhu` nor `tes/kecerahan`,
for every payload and store behaviour, the store is unchanged and no statement
is executed; no error is reported exactly when the payload decodes as JSON and
the store accepts the opening and the ending of the connection. -/
theorem unknown_topic_ignored (parse : String → Except String JsVal) (b : StoreBehaviour)
    (s : Store) (topic payload : String) (h1 : topic ≠ TOPIC_SUHU) (h2 : topic ≠ TOPIC_LDR) :
    (onMessage parse b s topic payload).store = s ∧
    statements (onMessage parse b s topic payload).events = [] ∧
    (errorsReported (onMessage parse b s topic payload).events = [] ↔
      (∃ data, parse payload = .ok data) ∧ b.connectError = none ∧ b.endError = none) := by
  unfold onMessage onMessageTry
  cases parse payload with
  | error e => simp [statements, errorsReported]
  | ok data =>
    cases b.connectError with
    | some e => simp [statements, errorsReported]
    | none =>
      cases b.endError <;> simp [h1, h2, statements, errorsReported]

/-- C9 amended, at a JSON payload on another topic. -/
theorem unknown_topic_ignored_witness :
    (onMessage parseTable healthy oneReading "lain/topik" "null").store = oneReading ∧
    statements (onMessage parseTable healthy oneReading "lain/topik" "null").events = [] ∧
    (errorsReported (onMessage parseTable healthy oneReading "lain/topik" "null").events = [] ↔
      (∃ data, parseTable "null" = .ok data) ∧ healthy.connectError = none ∧
        healthy.endError = none) :=
  unknown_topic_ignored parseTable healthy oneReading "lain/topik" "null"
    (by decide) (by decide)

/-- C10 as stated fails.  On the table with one row, two brightness messages
(340, then 120) each give the row with id 1 a new `lux`: its `lux` is written
twice. -/
theorem lux_written_twice :
    luxWrites parseTable 1 oneReading [brightness340, brightness120] = 2 := by
  simp [luxWrites, brightness340, brightness120, onMessage, onMessageTry, parseTable, healthy,
    TOPIC_LDR, TOPIC_SUHU, getProp, executeWrite, bindParam, toColumn, toStringThrows,
    updateLatest, orderByIdDesc, oneReading, luxOf, bind, Except.bind, pure, Except.pure,
    List.lookup]

/-- C10, amended.  Over every sequence of messages from every store state: the
rows present at the start stay in place with their id, `suhu`, `humidity` and
`timestamp` (no row is deleted, the ids only grow); the number of rows grows by
at most the number of messages on `tes/suhu` (a row is created only by a
message on that topic); and when no message is on `tes/kecerahan` the rows
present at the start are unchanged altogether (`lux` is written only by
brightness messages).  How often they write it is not bounded. -/
theorem rows_created_by_temperature_never_deleted (parse : String → Except String JsVal)
    (ds : List Delivery) (s : Store) :
    s.rows.map fixedColumns <+: (runMessages parse s ds).rows.map fixedColumns ∧
    (runMessages parse s ds).rows.length ≤
      s.rows.length + (ds.filter (fun d => d.topic = TOPIC_SUHU)).length ∧
    ((∀ d ∈ ds, d.topic ≠ TOPIC_LDR) → s.rows <+: (runMessages parse s ds).rows) := by
  induction ds generalizing s with
  | nil => simp [runMessages]
  | cons d ds ih =>
    obtain ⟨hp, hl⟩ := step_fixedColumns parse d.behaviour s d.topic d.payload
    obtain ⟨ihp, ihl, ihr⟩ := ih (onMessage parse d.behaviour s d.topic d.payload).store
    simp only [runMessages]
    refine ⟨hp.trans ihp, ?_, ?_⟩
    · have hcount : ((d :: ds).filter (fun d => d.topic = TOPIC_SUHU)).length =
          (if d.topic = TOPIC_SUHU then 1 else 0) +
            (ds.filter (fun d => d.topic = TOPIC_SUHU)).length := by
        by_cases ht : d.topic = TOPIC_SUHU
        · rw [List.filter_cons_of_pos (by simpa using ht), if_pos ht, List.length_cons]
          omega
        · rw [List.filter_cons_of_neg (by simpa using ht), if_neg ht]
          omega
      rw [hcount]
      omega
    · intro hoff
      exact (step_rows_off_brightness parse d.behaviour s d.topic d.payload
        (hoff d (List.mem_cons_self _ _))).trans
        (ihr (fun x hx => hoff x (List.mem_cons_of_mem _ hx)))

/-- C10 amended, at one temperature message on the table with one row: the row
is still there, unchanged. -/
theorem rows_created_by_temperature_never_deleted_witness :
    oneReading.rows <+: (runMessages parseTable oneReading [temperature225]).rows :=
  (rows_created_by_temperature_never_deleted parseTable [temperature225] oneReading).2.2
    (by
      intro d hd
      simp only [List.mem_singleton] at hd
      rw [hd]
      exact topics_differ.symm)

/-- The scenario of the spec: `temperature 22.5, humidity 60` on `tes/suhu`,
then `brightness 340` on `tes/kecerahan`, on the empty table, leave one row
with `suhu` 22.5, `humidity` 60 and `lux` 340. -/
theorem scenario_temperature_then_brightness :
    runMessages parseTable emptyStore [temperature225, brightness340] =
      { rows := [{ id := 1, suhu := some 22.5, humidity := some 60, lux := some 340,
                   timestamp := noon }],
        autoInc := 2 } := by
  simp [runMessages, temperature225, brightness340, onMessage, onMessageTry, parseTable, healthy,
    TOPIC_LDR, TOPIC_SUHU, getProp, executeWrite, bindParam, toColumn, toStringThrows,
    updateLatest, orderByIdDesc, insertRow, emptyStore, bind, Except.bind, pure, Except.pure,
    List.lookup]

end IotBridge
